import Mathlib

/-!
Verification of the pixel-studio-calendar server (src/server.js) against its
natural-language specification.

Shallow embedding conventions:

* A calendar date is a year/month/day triple (proleptic Gregorian, as used by
  the JavaScript Date object).  All JavaScript Date values in the source are
  interpreted in a single fixed-offset timezone, so local time and the UTC
  time used by toISOString coincide; an instant is the integer number of
  minutes since 0001-01-01T00:00.
* The external collaborators (Google Calendar, MongoDB, nodemailer) are
  modelled by passing their observable results into the route handlers as
  explicit arguments (a fetched event list, or an Except value for a call
  that can fail); a thrown exception in the source corresponds to an
  Except.error argument and is routed to the catch branch of the handler.
* Comparisons of ISO date strings, such as
  someDate.toISOString().split(T)[0] === dateStr, are modelled by the
  predicate sameDay: the instant lies inside the 1440-minute window of the
  calendar date, which holds exactly when the two ISO date strings agree.
-/

/-- A calendar date: the year/month/day triple of a JavaScript Date in the
model timezone. -/
structure CalDate where
  year : Nat
  month : Nat
  day : Nat
deriving DecidableEq, Repr

/-- Gregorian leap-year rule, as implemented by the JavaScript Date type. -/
def isLeap (y : Nat) : Bool :=
  (y % 4 == 0 && y % 100 != 0) || y % 400 == 0

/-- Number of days in a month, as produced by new Date(year, month, 0)
normalisation in the source. -/
def daysInMonth (y m : Nat) : Nat :=
  if m == 2 then (if isLeap y then 29 else 28)
  else if m == 4 || m == 6 || m == 9 || m == 11 then 30
  else 31

/-- Days in the months of year y strictly before month m. -/
def daysBeforeMonth (y : Nat) : Nat → Nat
  | 0 => 0
  | 1 => 0
  | Nat.succ prev => daysBeforeMonth y prev + daysInMonth y prev

/-- Days in the years strictly before year y (y at least 1). -/
def daysBeforeYear (y : Nat) : Nat :=
  365 * (y - 1) + (y - 1) / 4 - (y - 1) / 100 + (y - 1) / 400

/-- Day number of a calendar date: 0001-01-01 is day 0.  This is the day
index that underlies the JavaScript Date value for local midnight of the
date. -/
def rataDie (d : CalDate) : Nat :=
  daysBeforeYear d.year + daysBeforeMonth d.year d.month + (d.day - 1)

/-- The instant (minutes) of local midnight of a calendar date.  This is the
value of new Date(dateString) for an ISO date string, and of setHours(0,0,0,0)
on a Date lying inside the date. -/
def dateInstant (d : CalDate) : Int :=
  (rataDie d : Int) * 1440

/-- JavaScript getDay: 0 is Sunday.  0001-01-01 was a Monday. -/
def jsGetDay (d : CalDate) : Nat :=
  (rataDie d + 1) % 7

/-- Source function isWeekend: only Sunday counts as closed. -/
def isWeekend (d : CalDate) : Bool :=
  jsGetDay d == 0

/-- Left zero-padding to two digits, as in an ISO month or day field. -/
def pad2 (n : Nat) : String :=
  if n < 10 then "0" ++ toString n else toString n

/-- The fixed holiday list of the source function isHoliday (strings as
produced by toISOString().slice(5, 10)). -/
def holidayStrs : List String :=
  ["01-01", "01-06", "04-25", "05-01", "06-02",
   "08-15", "11-01", "12-08", "12-25", "12-26"]

/-- The month-day part of the ISO string of a date,
toISOString().slice(5, 10). -/
def monthDayStr (d : CalDate) : String :=
  pad2 d.month ++ "-" ++ pad2 d.day

/-- Source function isHoliday. -/
def isHoliday (d : CalDate) : Bool :=
  holidayStrs.contains (monthDayStr d)

/-- The instant inst falls on calendar date d; this models comparing the
ISO date string of inst with the ISO string of d. -/
def sameDay (inst : Int) (d : CalDate) : Bool :=
  decide (dateInstant d ≤ inst ∧ inst < dateInstant d + 1440)

/-- A Google Calendar event as consumed by the source: the optional start
and end dateTime instants (absent for all-day events). -/
structure GEvent where
  startDateTime : Option Int
  endDateTime : Option Int
deriving DecidableEq, Repr

/-- A ClosedDay record: the stored Date instant plus the free-text fields. -/
structure ClosedDay where
  date : Int
  reason : Option String
  type : String
deriving DecidableEq, Repr

/-- JavaScript parseInt on a digit string (no sign): the leading decimal
digits, or none (NaN) when the string does not start with a digit. -/
def jsParseDigits (cs : List Char) : Option Nat :=
  match cs.takeWhile (fun c => c.isDigit) with
  | [] => none
  | ds => some (ds.foldl (fun a c => a * 10 + (c.toNat - 48)) 0)


/-- JavaScript parseInt of a character sequence: an optional sign followed
by digits. -/
def jsParseIntChars (cs : List Char) : Option Int :=
  match cs with
  | '-' :: rest => (jsParseDigits rest).map (fun n => -(n : Int))
  | '+' :: rest => (jsParseDigits rest).map (fun n => (n : Int))
  | _ => (jsParseDigits cs).map (fun n => (n : Int))

/-- JavaScript String.replace with a single-character pattern: removes the
first occurrence only. -/
def removeFirstChar (c : Char) : List Char → List Char
  | [] => []
  | x :: xs => if x == c then xs else x :: removeFirstChar c xs

/-- duration.replace(h, empty string) from the source. -/
def stripFirstH (s : String) : String :=
  String.mk (removeFirstChar 'h' s.data)

/-- parseInt(duration.replace(h, empty)) from the booking handler. -/
def parseDurationHours (s : String) : Option Int :=
  jsParseIntChars (stripFirstH s).data

/-- JavaScript String.split with a single-character separator, on the
character list of the string. -/
def splitOnChar (c : Char) : List Char → List (List Char)
  | [] => [[]]
  | x :: xs =>
    if x == c then [] :: splitOnChar c xs
    else
      match splitOnChar c xs with
      | [] => [[x]]
      | g :: gs => (x :: g) :: gs

/-- timeSlot.split(colon) followed by parseInt of the hour and minute
fields; none models a NaN that turns the Date invalid. -/
def parseHM (s : String) : Option (Int × Int) :=
  match splitOnChar ':' s.data with
  | h :: m :: _ =>
    match jsParseIntChars h, jsParseIntChars m with
    | some a, some b => some (a, b)
    | _, _ => none
  | _ => none

/-- Source function getBusinessHours().slots. -/
def businessSlots : List String :=
  ["09:00", "10:00", "11:00", "12:00", "13:00",
   "14:00", "15:00", "16:00", "17:00"]

/-- The occupancy test of the slots route: the event has both dateTimes and
slotTime lies in the half-open busy interval. -/
def occupiedBy (e : GEvent) (inst : Int) : Bool :=
  match e.startDateTime, e.endDateTime with
  | some es, some ee => decide (es ≤ inst) && decide (inst < ee)
  | _, _ => false

/-- One element of the slots response. -/
structure SlotEntry where
  time : String
  available : Bool
  datetime : Int
deriving DecidableEq, Repr

/-- One iteration of the forEach loop of the slots route: the absolute
instant of the slot on the date and its availability flag.  Every element of
businessSlots parses, so the none branch is unreachable. -/
def slotEntry (d : CalDate) (events : List GEvent) (t : String) : SlotEntry :=
  match parseHM t with
  | some (h, mi) =>
    let inst := dateInstant d + h * 60 + mi
    ⟨t, !(events.any (fun e => occupiedBy e inst)), inst⟩
  | none => ⟨t, true, 0⟩

/-- The forEach loop of the slots route over the fixed slot grid. -/
def slotEntries (d : CalDate) (events : List GEvent) : List SlotEntry :=
  businessSlots.map (slotEntry d events)

/-- Response of GET /api/slots/:date — a success body with its slot list, or
the 500 branch of the catch handler. -/
inductive SlotsResponse where
  | ok (slots : List SlotEntry)
  | err (msg : String)
deriving DecidableEq, Repr

/-- GET /api/slots/:date.  todayStart is new Date().setHours(0,0,0,0); the
fetch argument is the result of the Google Calendar events.list call, whose
failure propagates to the catch branch. -/
def getDaySlots (todayStart : Int) (d : CalDate)
    (fetch : Except String (List GEvent)) : SlotsResponse :=
  if dateInstant d < todayStart then .ok []
  else if isWeekend d || isHoliday d then .ok []
  else
    match fetch with
    | .error e => .err e
    | .ok events => .ok (slotEntries d events)

/-- The event starts on date d: event.start has a dateTime and its ISO date
part equals the date string of d. -/
def startsOn (e : GEvent) (d : CalDate) : Bool :=
  match e.startDateTime with
  | some es => sameDay es d
  | none => false

/-- hasBookings in the month loop: some fetched event starts on the date. -/
def hasBookingsOn (evs : List GEvent) (d : CalDate) : Bool :=
  evs.any (fun e => startsOn e d)

/-- The declared-closure test of the month loop: some ClosedDay record has
the same ISO date string as the date. -/
def declaredClosed (cds : List ClosedDay) (d : CalDate) : Bool :=
  cds.any (fun c => sameDay c.date d)

/-- The value of the status variable after the three closure checks of the
month loop (available, then overwritten to closed by isWeekend, isHoliday
and the ClosedDay check in turn). -/
def closureStatus (d : CalDate) (cds : List ClosedDay) : String :=
  if declaredClosed cds d then "closed"
  else if isHoliday d then "closed"
  else if isWeekend d then "closed"
  else "available"

/-- The final status of the month loop: occupied when some event starts on
the date and the status is still available after the closure checks. -/
def rawStatus (d : CalDate) (cds : List ClosedDay) (evs : List GEvent) : String :=
  if hasBookingsOn evs d && (closureStatus d cds == "available") then "occupied"
  else closureStatus d cds

/-- The bookings field of a month entry: the number of fetched events
starting on the date when hasBookings holds, else 0. -/
def bookingsCount (evs : List GEvent) (d : CalDate) : Nat :=
  if hasBookingsOn evs d then (evs.filter (fun e => startsOn e d)).length
  else 0

/-- One entry pushed by the month loop (the date stands for its ISO date
string). -/
structure DayEntry where
  date : CalDate
  status : String
  bookings : Nat
deriving DecidableEq, Repr

/-- The entry of the month loop for one date. -/
def dayEntry (d : CalDate) (cds : List ClosedDay) (evs : List GEvent) : DayEntry :=
  ⟨d, rawStatus d cds evs, bookingsCount evs d⟩

/-- The while loop of GET /api/calendar/:year/:month: currentDate runs from
day to the last day of the month, one entry per iteration. -/
def monthLoop (y m last day : Nat) (cds : List ClosedDay) (evs : List GEvent) :
    List DayEntry :=
  if _h : day ≤ last then
    dayEntry ⟨y, m, day⟩ cds evs :: monthLoop y m last (day + 1) cds evs
  else []
termination_by last + 1 - day
decreasing_by omega

/-- GET /api/calendar/:year/:month applied to the fetched ClosedDay records
and Google Calendar events. -/
def getMonthAvailability (y m : Nat) (cds : List ClosedDay) (evs : List GEvent) :
    List DayEntry :=
  monthLoop y m (daysInMonth y m) 1 cds evs

/-- timeMin of the month query: new Date(year, month - 1, 1) at local
midnight. -/
def monthTimeMin (y m : Nat) : Int :=
  dateInstant ⟨y, m, 1⟩

/-- timeMax of the month query: new Date(year, month, 0), local midnight of
the last day of the month. -/
def monthTimeMax (y m : Nat) : Int :=
  dateInstant ⟨y, m, daysInMonth y m⟩

/-- Modelled from the spec: the Busy-Interval Source (the external calendar
events.list collaborator, which is not part of this repository) returns the
busy intervals known to exist in the queried time range, i.e. those whose
present endpoints overlap the closed range from timeMin to timeMax. -/
def fetchRange (tmin tmax : Int) (pool : List GEvent) : List GEvent :=
  pool.filter (fun e =>
    e.startDateTime.all (fun s => decide (s ≤ tmax)) &&
    e.endDateTime.all (fun en => decide (tmin ≤ en)))

/-- The month route end to end: fetch the busy intervals for the month
query range, then run the month loop over them. -/
def getMonthView (y m : Nat) (cds : List ClosedDay) (pool : List GEvent) :
    List DayEntry :=
  getMonthAvailability y m cds
    (fetchRange (monthTimeMin y m) (monthTimeMax y m) pool)

/-- The Closure Policy of the spec, as composed by the month loop:
weekly closure, fixed holiday, or declared closure. -/
def isClosedPolicy (d : CalDate) (cds : List ClosedDay) : Bool :=
  isWeekend d || isHoliday d || declaredClosed cds d

/-- The status rule as the spec states it: closed when the Closure Policy
holds, else occupied when some busy interval starts on the date, else
available. -/
def specStatus (d : CalDate) (cds : List ClosedDay) (evs : List GEvent) : String :=
  if isClosedPolicy d cds then "closed"
  else if hasBookingsOn evs d then "occupied"
  else "available"

/-- A booking request body; a missing (falsy) field is none.  The date field
stands for the parsed calendar date of the ISO date string. -/
structure BookingReq where
  date : Option CalDate
  timeSlot : Option String
  duration : Option String
  customerName : Option String
  customerEmail : Option String
  customerPhone : Option String
  shootingType : Option String
  message : Option String
deriving DecidableEq, Repr

/-- A persisted Booking record (the fields of the mongoose Booking model
that the handler fills). -/
structure Booking where
  id : String
  date : Int
  startTime : Int
  endTime : Int
  customerName : String
  customerEmail : String
  customerPhone : String
  duration : String
  shootingType : Option String
  message : Option String
  status : String
  googleEventId : String
deriving DecidableEq, Repr

/-- The confirmation payload of a successful POST /api/bookings. -/
structure ConfirmPayload where
  id : String
  date : CalDate
  timeSlot : String
  duration : String
  customerName : String
deriving DecidableEq, Repr

/-- Observable outcome of one POST /api/bookings request: the HTTP response
plus which external side effects happened.  createdEventId is the external
calendar event existing after the request (the model has no delete
operation, mirroring the source). -/
structure TxOutcome where
  status : Nat
  success : Bool
  calendarCalled : Bool
  createdEventId : Option String
  saveCalled : Bool
  savedBooking : Option Booking
  mailCalled : Bool
  mailSent : Bool
  payload : Option ConfirmPayload
deriving DecidableEq, Repr

/-- Start and end instants of the booking: bookingDate.setHours on the slot
fields, then endDate.setHours(getHours() + parsed duration).  none models a
NaN that makes toISOString throw while the event body is built, before any
external call. -/
def computeBookingTimes (d : CalDate) (ts dur : String) : Option (Int × Int) :=
  match parseHM ts, parseDurationHours dur with
  | some (h, mi), some dh =>
    some (dateInstant d + h * 60 + mi, dateInstant d + h * 60 + mi + dh * 60)
  | _, _ => none

/-- The 400 response of the required-field check: no external call is
made. -/
def validationFailure : TxOutcome :=
  ⟨400, false, false, none, false, none, false, false, none⟩

/-- The booking handler after validation has passed, with the three
collaborator results (event insert, record save, mail send) injected. -/
def postBookingValid (d : CalDate) (ts dur nm em ph : String)
    (st msg : Option String) (ins : Except String String)
    (save : Except String Unit) (mail : Except String Unit) : TxOutcome :=
  match computeBookingTimes d ts dur with
  | none => ⟨500, false, false, none, false, none, false, false, none⟩
  | some (s, e) =>
    match ins with
    | .error _ => ⟨500, false, true, none, false, none, false, false, none⟩
    | .ok evId =>
      let bk : Booking := ⟨evId, s, s, e, nm, em, ph, dur, st, msg, "confirmed", evId⟩
      match save with
      | .error _ => ⟨500, false, true, some evId, true, none, false, false, none⟩
      | .ok _ =>
        match mail with
        | .error _ => ⟨500, false, true, some evId, true, some bk, true, false, none⟩
        | .ok _ =>
          ⟨200, true, true, some evId, true, some bk, true, true,
            some ⟨evId, d, ts, dur, nm⟩⟩

/-- POST /api/bookings: the required-field check, then the side-effecting
sequence. -/
def postBooking (req : BookingReq) (ins : Except String String)
    (save : Except String Unit) (mail : Except String Unit) : TxOutcome :=
  match req.date, req.timeSlot, req.duration, req.customerName,
      req.customerEmail, req.customerPhone with
  | some d, some ts, some dur, some nm, some em, some ph =>
    postBookingValid d ts dur nm em ph req.shootingType req.message ins save mail
  | _, _, _, _, _, _ => validationFailure

/-- The ten fixed holiday month-days named by the spec, as month/day
pairs. -/
def holidayMonthDays : List (Nat × Nat) :=
  [(1, 1), (1, 6), (4, 25), (5, 1), (6, 2),
   (8, 15), (11, 1), (12, 8), (12, 25), (12, 26)]

/-- The concrete event pool for the month-fetch witness: one event starting
one hour after local midnight of 2030-07-31 and one starting exactly at that
midnight. -/
def c9pool : List GEvent :=
  [⟨some (monthTimeMax 2030 7 + 60), some (monthTimeMax 2030 7 + 120)⟩,
   ⟨some (monthTimeMax 2030 7), some (monthTimeMax 2030 7 + 60)⟩]

/-- A fully populated booking request for 2030-07-03 at 14:00 for two
hours. -/
def reqOk : BookingReq :=
  ⟨some ⟨2030, 7, 3⟩, some "14:00", some "2h", some "Ann", some "ann", some "123",
   none, none⟩

/-- The same request with the loosely formatted duration 0h, which the
required-field check accepts. -/
def reqZero : BookingReq :=
  ⟨some ⟨2030, 7, 3⟩, some "14:00", some "0h", some "Ann", some "ann", some "123",
   none, none⟩

/-- The Booking record persisted for reqOk when every collaborator call
succeeds (2030-07-03 has instant 1067414400). -/
def bkOk : Booking :=
  ⟨"ev1", 1067415240, 1067415240, 1067415360, "Ann", "ann", "123", "2h",
   none, none, "confirmed", "ev1"⟩

/-- One busy interval 10:00 to 12:00 on 2030-07-03, the day-view example of
the spec. -/
def ev6 : List GEvent :=
  [⟨some (dateInstant ⟨2030, 7, 3⟩ + 600), some (dateInstant ⟨2030, 7, 3⟩ + 720)⟩]

theorem anyOccupied_iff (events : List GEvent) (inst : Int) :
    (events.any (fun e => occupiedBy e inst)) = true ↔
      ∃ e ∈ events, ∃ es ee, e.startDateTime = some es ∧ e.endDateTime = some ee ∧
        es ≤ inst ∧ inst < ee := by
  rw [List.any_eq_true]
  constructor
  · rintro ⟨e, he, hocc⟩
    refine ⟨e, he, ?_⟩
    rcases hs : e.startDateTime with _ | es
    · simp [occupiedBy, hs] at hocc
    · rcases hend : e.endDateTime with _ | ee
      · simp [occupiedBy, hs, hend] at hocc
      · simp only [occupiedBy, hs, hend, Bool.and_eq_true, decide_eq_true_eq] at hocc
        exact ⟨es, ee, rfl, rfl, hocc.1, hocc.2⟩
  · rintro ⟨e, he, es, ee, hs, hend, h1, h2⟩
    refine ⟨e, he, ?_⟩
    simp only [occupiedBy, hs, hend, Bool.and_eq_true, decide_eq_true_eq]
    exact ⟨h1, h2⟩

theorem isHoliday_year_irrel (y y2 m d : Nat) :
    isHoliday ⟨y, m, d⟩ = isHoliday ⟨y2, m, d⟩ := rfl

/-- C4: for every year, each of the ten fixed holiday month-days is
recognised by isHoliday, independently of the year. -/
theorem holiday_monthdays_closed_every_year :
    ∀ (y m d : Nat), (m, d) ∈ holidayMonthDays → isHoliday ⟨y, m, d⟩ = true := by
  intro y m d h
  rw [isHoliday_year_irrel y 0]
  fin_cases h <;> decide

/-- C4 witness: Liberation day 2031. -/
theorem holiday_monthdays_closed_every_year_witness :
    (4, 25) ∈ holidayMonthDays ∧ isHoliday ⟨2031, 4, 25⟩ = true :=
  ⟨by decide, holiday_monthdays_closed_every_year 2031 4 25 (by decide)⟩

/-- C10: for a date strictly before the start of the current calendar day,
the day view returns an empty slot list as a success, whatever the closure
state and whatever the busy-interval fetch would have done. -/
theorem past_date_empty_slots :
    ∀ (todayStart : Int) (d : CalDate) (fetch : Except String (List GEvent)),
      dateInstant d < todayStart →
      getDaySlots todayStart d fetch = SlotsResponse.ok [] := by
  intro t d f h
  unfold getDaySlots
  rw [if_pos h]

/-- C10 witness: 2030-07-03 seen from 2030-07-04, with a failing fetch. -/
theorem past_date_empty_slots_witness :
    dateInstant ⟨2030, 7, 3⟩ < dateInstant ⟨2030, 7, 4⟩ ∧
    getDaySlots (dateInstant ⟨2030, 7, 4⟩) ⟨2030, 7, 3⟩ (Except.error "down") =
      SlotsResponse.ok [] :=
  ⟨by decide, past_date_empty_slots _ _ _ (by decide)⟩

/-- C1 counterexample: 2030-07-03 (a Wednesday, not a holiday) is marked
closed by the Closure Policy solely through a ClosedDay record, yet the day
view does not return an empty slot list. -/
theorem day_view_ignores_declared_closures :
    isClosedPolicy ⟨2030, 7, 3⟩ [⟨dateInstant ⟨2030, 7, 3⟩, none, "personal"⟩] = true ∧
    isWeekend ⟨2030, 7, 3⟩ = false ∧ isHoliday ⟨2030, 7, 3⟩ = false ∧
    getDaySlots 0 ⟨2030, 7, 3⟩ (Except.ok []) ≠ SlotsResponse.ok [] := by
  decide

/-- C1 (amended): the day view returns an empty slot list for every date
closed by the weekly closure or the fixed holiday list; declared ClosedDay
records are not consulted by the day view. -/
theorem day_view_weekly_or_holiday_empty :
    ∀ (todayStart : Int) (d : CalDate) (fetch : Except String (List GEvent)),
      (isWeekend d || isHoliday d) = true →
      getDaySlots todayStart d fetch = SlotsResponse.ok [] := by
  intro t d f h
  unfold getDaySlots
  split
  · rfl
  · simp [h]

/-- C1 witness: New Year 2030 (a holiday) with a failing fetch. -/
theorem day_view_weekly_or_holiday_empty_witness :
    (isWeekend ⟨2030, 1, 1⟩ || isHoliday ⟨2030, 1, 1⟩) = true ∧
    getDaySlots 0 ⟨2030, 1, 1⟩ (Except.error "down") = SlotsResponse.ok [] :=
  ⟨by decide, day_view_weekly_or_holiday_empty 0 ⟨2030, 1, 1⟩ (Except.error "down") (by decide)⟩

theorem slotEntry_time (d : CalDate) (events : List GEvent) (t : String) :
    (slotEntry d events t).time = t := by
  unfold slotEntry
  rcases parseHM t with _ | ⟨h, mi⟩ <;> rfl

theorem slotEntry_spec (d : CalDate) (events : List GEvent) (t : String)
    (h mi : Int) (hp : parseHM t = some (h, mi)) :
    (slotEntry d events t).datetime = dateInstant d + h * 60 + mi ∧
    ((slotEntry d events t).available = true ↔
      ¬ ∃ e ∈ events, ∃ es ee, e.startDateTime = some es ∧ e.endDateTime = some ee ∧
        es ≤ dateInstant d + h * 60 + mi ∧ dateInstant d + h * 60 + mi < ee) := by
  have hform : slotEntry d events t =
      ⟨t, !(events.any fun e => occupiedBy e (dateInstant d + h * 60 + mi)),
        dateInstant d + h * 60 + mi⟩ := by
    unfold slotEntry
    rw [hp]
  rw [hform]
  refine ⟨rfl, ?_⟩
  show (!(events.any fun e => occupiedBy e (dateInstant d + h * 60 + mi))) = true ↔ _
  rw [← anyOccupied_iff events (dateInstant d + h * 60 + mi)]
  cases hb : events.any (fun e => occupiedBy e (dateInstant d + h * 60 + mi)) <;> simp [hb]

theorem businessSlots_parse :
    ∀ t ∈ businessSlots, (parseHM t).isSome = true := by
  decide

/-- C6: for an open, non-past date the day view returns all 9 fixed slots in
slot order at their absolute instants, and a slot is available exactly when
its instant lies in no fetched half-open busy interval; in particular a slot
equal to an interval end instant is not excluded by that interval. -/
theorem day_view_slots_halfopen :
    ∀ (todayStart : Int) (d : CalDate) (events : List GEvent),
      ¬ dateInstant d < todayStart → isWeekend d = false → isHoliday d = false →
      getDaySlots todayStart d (Except.ok events) = SlotsResponse.ok (slotEntries d events) ∧
      (slotEntries d events).length = 9 ∧
      (slotEntries d events).map SlotEntry.time = businessSlots ∧
      ∀ s ∈ slotEntries d events,
        ∃ h mi, parseHM s.time = some (h, mi) ∧
          s.datetime = dateInstant d + h * 60 + mi ∧
          (s.available = true ↔
            ¬ ∃ e ∈ events, ∃ es ee, e.startDateTime = some es ∧ e.endDateTime = some ee ∧
              es ≤ s.datetime ∧ s.datetime < ee) := by
  intro t d events hpast hW hH
  refine ⟨?_, ?_, ?_, ?_⟩
  · unfold getDaySlots
    rw [if_neg hpast]
    simp [hW, hH]
  · simp [slotEntries, businessSlots]
  · unfold slotEntries
    rw [List.map_map]
    conv_rhs => rw [← List.map_id businessSlots]
    apply List.map_congr_left
    intro a _
    exact slotEntry_time d events a
  · intro s hs
    rw [slotEntries, List.mem_map] at hs
    obtain ⟨a, ha, rfl⟩ := hs
    have hsome := businessSlots_parse a ha
    rw [Option.isSome_iff_exists] at hsome
    obtain ⟨⟨h, mi⟩, hp⟩ := hsome
    have hspec := slotEntry_spec d events a h mi hp
    refine ⟨h, mi, ?_, hspec.1, ?_⟩
    · rw [slotEntry_time d events a]
      exact hp
    · rw [hspec.1]
      exact hspec.2

/-- C6 witness: 2030-07-03 (open, not past) with the busy interval 10:00 to
12:00 of the spec example. -/
theorem day_view_slots_halfopen_witness :
    (¬ dateInstant ⟨2030, 7, 3⟩ < 0) ∧ isWeekend ⟨2030, 7, 3⟩ = false ∧
    isHoliday ⟨2030, 7, 3⟩ = false ∧
    getDaySlots 0 ⟨2030, 7, 3⟩ (Except.ok ev6) =
      SlotsResponse.ok (slotEntries ⟨2030, 7, 3⟩ ev6) :=
  ⟨by decide, by decide, by decide,
   (day_view_slots_halfopen 0 ⟨2030, 7, 3⟩ ev6 (by decide) (by decide) (by decide)).1⟩

theorem monthLoop_eq (y m : Nat) (cds : List ClosedDay) (evs : List GEvent) :
    ∀ (n last day : Nat), last + 1 - day = n →
      monthLoop y m last day cds evs =
        (List.range' day n).map (fun dd => dayEntry ⟨y, m, dd⟩ cds evs) := by
  intro n
  induction n with
  | zero =>
    intro last day h
    rw [monthLoop, dif_neg (by omega)]
    rfl
  | succ k ih =>
    intro last day h
    rw [monthLoop, dif_pos (by omega), List.range'_succ, List.map_cons,
      ih last (day + 1) (by omega)]

theorem month_view_shape (y m : Nat) (cds : List ClosedDay) (evs : List GEvent) :
    getMonthAvailability y m cds evs =
      (List.range' 1 (daysInMonth y m)).map (fun dd => dayEntry ⟨y, m, dd⟩ cds evs) :=
  monthLoop_eq y m cds evs (daysInMonth y m) (daysInMonth y m) 1 (by omega)

theorem closureStatus_ne_occupied (d : CalDate) (cds : List ClosedDay) :
    closureStatus d cds ≠ "occupied" := by
  unfold closureStatus
  cases declaredClosed cds d <;> cases isHoliday d <;> cases isWeekend d <;> simp

theorem rawStatus_eq_specStatus (d : CalDate) (cds : List ClosedDay)
    (evs : List GEvent) : rawStatus d cds evs = specStatus d cds evs := by
  unfold rawStatus specStatus closureStatus isClosedPolicy
  cases isWeekend d <;> cases isHoliday d <;> cases declaredClosed cds d <;>
    cases hasBookingsOn evs d <;> simp

/-- C5: for every year and month the month view has exactly one entry per
calendar date of the month in ascending order, each entry carries a
(necessarily non-negative) busy count, and its status follows the spec rule:
closed when any closure predicate holds, else occupied when a fetched busy
interval starts on the date, else available. -/
theorem month_view_entries :
    ∀ (y m : Nat) (cds : List ClosedDay) (evs : List GEvent),
      (getMonthAvailability y m cds evs).length = daysInMonth y m ∧
      (getMonthAvailability y m cds evs).map DayEntry.date =
        (List.range' 1 (daysInMonth y m)).map (fun dd => CalDate.mk y m dd) ∧
      ∀ entry ∈ getMonthAvailability y m cds evs,
        entry.status = specStatus entry.date cds evs ∧ 0 ≤ entry.bookings := by
  intro y m cds evs
  rw [month_view_shape]
  refine ⟨by simp, ?_, ?_⟩
  · rw [List.map_map]
    apply List.map_congr_left
    intro dd _
    rfl
  · intro entry hmem
    rw [List.mem_map] at hmem
    obtain ⟨dd, _, rfl⟩ := hmem
    exact ⟨rawStatus_eq_specStatus _ _ _, Nat.zero_le _⟩

/-- C5 witness: July 2030 with no closed days and no events. -/
theorem month_view_entries_witness :
    (getMonthAvailability 2030 7 [] []).length = daysInMonth 2030 7 ∧
    (dayEntry ⟨2030, 7, 1⟩ [] []).status = specStatus ⟨2030, 7, 1⟩ [] [] :=
  ⟨(month_view_entries 2030 7 [] []).1,
   ((month_view_entries 2030 7 [] []).2.2 (dayEntry ⟨2030, 7, 1⟩ [] [])
     (by rw [month_view_shape]; decide)).1⟩

theorem mem_fetchRange {tmin tmax : Int} {pool : List GEvent} {e : GEvent}
    (h : e ∈ fetchRange tmin tmax pool) :
    e ∈ pool ∧ ∀ s, e.startDateTime = some s → s ≤ tmax := by
  unfold fetchRange at h
  rw [List.mem_filter] at h
  rcases h with ⟨hp, hpred⟩
  rw [Bool.and_eq_true] at hpred
  refine ⟨hp, ?_⟩
  intro s hs
  have h1 := hpred.1
  rw [hs, Option.all_some, decide_eq_true_eq] at h1
  exact h1

theorem startsOn_some {e : GEvent} {es : Int} (hsd : e.startDateTime = some es)
    (d : CalDate) : startsOn e d = sameDay es d := by
  unfold startsOn
  rw [hsd]

theorem startsOn_none {e : GEvent} (hsd : e.startDateTime = none)
    (d : CalDate) : startsOn e d = false := by
  unfold startsOn
  rw [hsd]

theorem sameDay_iff (inst : Int) (d : CalDate) :
    sameDay inst d = true ↔ dateInstant d ≤ inst ∧ inst < dateInstant d + 1440 := by
  unfold sameDay
  exact decide_eq_true_iff

/-- C9: the month busy query runs only up to local midnight of the last day
of the month, so an interval starting on the last day strictly after
midnight is never fetched, and the last entry can be occupied or carry a
positive busy count only when some interval of the pool starts exactly at
that midnight. -/
theorem month_fetch_range_last_day :
    ∀ (y m : Nat) (cds : List ClosedDay) (pool : List GEvent),
      (∀ e ∈ pool, ∀ s, e.startDateTime = some s → monthTimeMax y m < s →
        e ∉ fetchRange (monthTimeMin y m) (monthTimeMax y m) pool) ∧
      (∀ entry ∈ getMonthView y m cds pool,
        entry.date.day = daysInMonth y m →
        entry.status = "occupied" ∨ 0 < entry.bookings →
        ∃ e ∈ pool, e.startDateTime = some (monthTimeMax y m)) := by
  intro y m cds pool
  constructor
  · intro e _ s hs hlt hmem
    obtain ⟨_, hle⟩ := mem_fetchRange hmem
    exact absurd (hle s hs) (not_le.mpr hlt)
  · intro entry hmem hday hocc
    rw [getMonthView, month_view_shape, List.mem_map] at hmem
    obtain ⟨dd, _, rfl⟩ := hmem
    simp only [dayEntry] at hday hocc
    subst hday
    have hb : hasBookingsOn
        (fetchRange (monthTimeMin y m) (monthTimeMax y m) pool)
        ⟨y, m, daysInMonth y m⟩ = true := by
      by_cases hb : hasBookingsOn
          (fetchRange (monthTimeMin y m) (monthTimeMax y m) pool)
          ⟨y, m, daysInMonth y m⟩ = true
      · exact hb
      · exfalso
        rw [Bool.not_eq_true] at hb
        rcases hocc with hocc | hocc
        · unfold rawStatus at hocc
          simp only [hb, Bool.false_and, Bool.false_eq_true, if_false] at hocc
          exact closureStatus_ne_occupied _ _ hocc
        · unfold bookingsCount at hocc
          simp only [hb, Bool.false_eq_true, if_false] at hocc
          exact Nat.lt_irrefl 0 hocc
    unfold hasBookingsOn at hb
    rw [List.any_eq_true] at hb
    obtain ⟨e, heF, hstart⟩ := hb
    rcases hsd : e.startDateTime with _ | es
    · rw [startsOn_none hsd] at hstart
      cases hstart
    · rw [startsOn_some hsd, sameDay_iff] at hstart
      obtain ⟨hePool, hle⟩ := mem_fetchRange heF
      refine ⟨e, hePool, ?_⟩
      rw [hsd]
      have hes : es = monthTimeMax y m := le_antisymm (hle es hsd) hstart.1
      rw [hes]

/-- C9 witness: July 2030; the event one hour past midnight of 07-31 is not
fetched, while the event exactly at that midnight makes the last entry
occupied. -/
theorem month_fetch_range_last_day_witness :
    (⟨some (monthTimeMax 2030 7 + 60), some (monthTimeMax 2030 7 + 120)⟩ : GEvent) ∉
      fetchRange (monthTimeMin 2030 7) (monthTimeMax 2030 7) c9pool ∧
    ∃ e ∈ c9pool, e.startDateTime = some (monthTimeMax 2030 7) :=
  ⟨(month_fetch_range_last_day 2030 7 [] c9pool).1
     ⟨some (monthTimeMax 2030 7 + 60), some (monthTimeMax 2030 7 + 120)⟩
     (by decide) (monthTimeMax 2030 7 + 60) rfl (by decide),
   (month_fetch_range_last_day 2030 7 [] c9pool).2
     (dayEntry ⟨2030, 7, 31⟩ []
       (fetchRange (monthTimeMin 2030 7) (monthTimeMax 2030 7) c9pool))
     (by unfold getMonthView; rw [month_view_shape]; decide)
     (by decide) (Or.inl (by decide))⟩

/-- C7: a booking request with any of the six required fields missing gets
a 400 validation failure and triggers no external side effect at all. -/
theorem missing_field_validation :
    ∀ (req : BookingReq) (ins : Except String String) (save mail : Except String Unit),
      (req.date = none ∨ req.timeSlot = none ∨ req.duration = none ∨
        req.customerName = none ∨ req.customerEmail = none ∨ req.customerPhone = none) →
      (postBooking req ins save mail).status = 400 ∧
      (postBooking req ins save mail).success = false ∧
      (postBooking req ins save mail).calendarCalled = false ∧
      (postBooking req ins save mail).createdEventId = none ∧
      (postBooking req ins save mail).saveCalled = false ∧
      (postBooking req ins save mail).savedBooking = none ∧
      (postBooking req ins save mail).mailCalled = false ∧
      (postBooking req ins save mail).mailSent = false := by
  intro req ins save mail h
  obtain ⟨od, ots, odur, onm, oem, oph, st, msg⟩ := req
  rcases od with _ | d <;> rcases ots with _ | ts <;> rcases odur with _ | dur <;>
    rcases onm with _ | nm <;> rcases oem with _ | em <;> rcases oph with _ | ph <;>
    first
      | exact ⟨rfl, rfl, rfl, rfl, rfl, rfl, rfl, rfl⟩
      | simp at h

/-- C7 witness: a request missing its time slot. -/
theorem missing_field_validation_witness :
    (BookingReq.timeSlot ⟨some ⟨2030, 7, 3⟩, none, some "2h", some "Ann", some "ann",
        some "123", none, none⟩ = none) ∧
    (postBooking ⟨some ⟨2030, 7, 3⟩, none, some "2h", some "Ann", some "ann",
        some "123", none, none⟩ (Except.ok "ev") (Except.ok ())
        (Except.ok ())).status = 400 :=
  ⟨rfl, (missing_field_validation _ _ _ _ (Or.inr (Or.inl rfl))).1⟩

/-- C8: when the external event insert fails, persistence and notification
are skipped and a 500 failure is returned; when persistence fails after a
successful insert, notification is skipped, a 500 failure is returned, and
the created external event is left in place (no compensating delete). -/
theorem booking_failure_no_compensation :
    ∀ (d : CalDate) (ts dur nm em ph : String) (st msg : Option String)
      (s e : Int) (save mail : Except String Unit) (errA errB evId : String),
      computeBookingTimes d ts dur = some (s, e) →
      ((postBooking ⟨some d, some ts, some dur, some nm, some em, some ph, st, msg⟩
          (Except.error errA) save mail).status = 500 ∧
        (postBooking ⟨some d, some ts, some dur, some nm, some em, some ph, st, msg⟩
          (Except.error errA) save mail).success = false ∧
        (postBooking ⟨some d, some ts, some dur, some nm, some em, some ph, st, msg⟩
          (Except.error errA) save mail).calendarCalled = true ∧
        (postBooking ⟨some d, some ts, some dur, some nm, some em, some ph, st, msg⟩
          (Except.error errA) save mail).saveCalled = false ∧
        (postBooking ⟨some d, some ts, some dur, some nm, some em, some ph, st, msg⟩
          (Except.error errA) save mail).savedBooking = none ∧
        (postBooking ⟨some d, some ts, some dur, some nm, some em, some ph, st, msg⟩
          (Except.error errA) save mail).mailCalled = false) ∧
      ((postBooking ⟨some d, some ts, some dur, some nm, some em, some ph, st, msg⟩
          (Except.ok evId) (Except.error errB) mail).status = 500 ∧
        (postBooking ⟨some d, some ts, some dur, some nm, some em, some ph, st, msg⟩
          (Except.ok evId) (Except.error errB) mail).success = false ∧
        (postBooking ⟨some d, some ts, some dur, some nm, some em, some ph, st, msg⟩
          (Except.ok evId) (Except.error errB) mail).saveCalled = true ∧
        (postBooking ⟨some d, some ts, some dur, some nm, some em, some ph, st, msg⟩
          (Except.ok evId) (Except.error errB) mail).savedBooking = none ∧
        (postBooking ⟨some d, some ts, some dur, some nm, some em, some ph, st, msg⟩
          (Except.ok evId) (Except.error errB) mail).mailCalled = false ∧
        (postBooking ⟨some d, some ts, some dur, some nm, some em, some ph, st, msg⟩
          (Except.ok evId) (Except.error errB) mail).createdEventId = some evId) := by
  intro d ts dur nm em ph st msg s e save mail errA errB evId hc
  have h1 : postBooking ⟨some d, some ts, some dur, some nm, some em, some ph, st, msg⟩
      (Except.error errA) save mail =
      ⟨500, false, true, none, false, none, false, false, none⟩ := by
    simp only [postBooking, postBookingValid, hc]
  have h2 : postBooking ⟨some d, some ts, some dur, some nm, some em, some ph, st, msg⟩
      (Except.ok evId) (Except.error errB) mail =
      ⟨500, false, true, some evId, true, none, false, false, none⟩ := by
    simp only [postBooking, postBookingValid, hc]
  rw [h1, h2]
  exact ⟨⟨rfl, rfl, rfl, rfl, rfl, rfl⟩, ⟨rfl, rfl, rfl, rfl, rfl, rfl⟩⟩

/-- C8 witness: persistence failure for the 2030-07-03 14:00 booking leaves
the created event ev1 in place. -/
theorem booking_failure_no_compensation_witness :
    computeBookingTimes ⟨2030, 7, 3⟩ "14:00" "2h" = some (1067415240, 1067415360) ∧
    (postBooking ⟨some ⟨2030, 7, 3⟩, some "14:00", some "2h", some "Ann", some "ann",
        some "123", none, none⟩ (Except.ok "ev1") (Except.error "dbdown")
        (Except.ok ())).createdEventId = some "ev1" :=
  ⟨by decide,
   (booking_failure_no_compensation ⟨2030, 7, 3⟩ "14:00" "2h" "Ann" "ann" "123"
     none none 1067415240 1067415360 (Except.ok ()) (Except.ok ()) "x" "dbdown" "ev1"
     (by decide)).2.2.2.2.2.2⟩

/-- C2 counterexample: with reqOk, a failing confirmation mail after a
successful insert and save yields a 500 failure response to the client, not
a success. -/
theorem mail_failure_returns_500 :
    (postBooking reqOk (Except.ok "ev1") (Except.ok ())
      (Except.error "mailfail")).success = false ∧
    (postBooking reqOk (Except.ok "ev1") (Except.ok ())
      (Except.error "mailfail")).status = 500 := by
  decide

/-- C2 (amended): a notification failure after event creation and
persistence returns a 500 failure to the client; the persisted record and
the external event stay in place and are not rolled back. -/
theorem mail_failure_after_persistence :
    ∀ (d : CalDate) (ts dur nm em ph : String) (st msg : Option String)
      (s e : Int) (evId errM : String),
      computeBookingTimes d ts dur = some (s, e) →
      (postBooking ⟨some d, some ts, some dur, some nm, some em, some ph, st, msg⟩
          (Except.ok evId) (Except.ok ()) (Except.error errM)).status = 500 ∧
      (postBooking ⟨some d, some ts, some dur, some nm, some em, some ph, st, msg⟩
          (Except.ok evId) (Except.ok ()) (Except.error errM)).success = false ∧
      (postBooking ⟨some d, some ts, some dur, some nm, some em, some ph, st, msg⟩
          (Except.ok evId) (Except.ok ()) (Except.error errM)).mailCalled = true ∧
      (postBooking ⟨some d, some ts, some dur, some nm, some em, some ph, st, msg⟩
          (Except.ok evId) (Except.ok ()) (Except.error errM)).mailSent = false ∧
      (postBooking ⟨some d, some ts, some dur, some nm, some em, some ph, st, msg⟩
          (Except.ok evId) (Except.ok ()) (Except.error errM)).savedBooking =
        some ⟨evId, s, s, e, nm, em, ph, dur, st, msg, "confirmed", evId⟩ ∧
      (postBooking ⟨some d, some ts, some dur, some nm, some em, some ph, st, msg⟩
          (Except.ok evId) (Except.ok ()) (Except.error errM)).createdEventId =
        some evId := by
  intro d ts dur nm em ph st msg s e evId errM hc
  have h1 : postBooking ⟨some d, some ts, some dur, some nm, some em, some ph, st, msg⟩
      (Except.ok evId) (Except.ok ()) (Except.error errM) =
      ⟨500, false, true, some evId, true,
        some ⟨evId, s, s, e, nm, em, ph, dur, st, msg, "confirmed", evId⟩,
        true, false, none⟩ := by
    simp only [postBooking, postBookingValid, hc]
  rw [h1]
  exact ⟨rfl, rfl, rfl, rfl, rfl, rfl⟩

/-- C2 witness: the concrete 2030-07-03 14:00 booking with a failing
confirmation mail. -/
theorem mail_failure_after_persistence_witness :
    computeBookingTimes ⟨2030, 7, 3⟩ "14:00" "2h" = some (1067415240, 1067415360) ∧
    (postBooking ⟨some ⟨2030, 7, 3⟩, some "14:00", some "2h", some "Ann", some "ann",
        some "123", none, none⟩ (Except.ok "ev1") (Except.ok ())
        (Except.error "mailfail")).status = 500 :=
  ⟨by decide,
   (mail_failure_after_persistence ⟨2030, 7, 3⟩ "14:00" "2h" "Ann" "ann" "123"
     none none 1067415240 1067415360 "ev1" "mailfail" (by decide)).1⟩

/-- C3 counterexample: the duration 0h passes the required-field check and
the whole transaction succeeds, persisting a Booking whose end instant
equals its start instant, so duration at least 1 is not enforced. -/
theorem zero_duration_booking_persists :
    parseDurationHours "0h" = some 0 ∧
    (postBooking reqZero (Except.ok "ev1") (Except.ok ())
      (Except.ok ())).success = true ∧
    (postBooking reqZero (Except.ok "ev1") (Except.ok ())
      (Except.ok ())).savedBooking =
      some ⟨"ev1", 1067415240, 1067415240, 1067415240, "Ann", "ann", "123", "0h",
        none, none, "confirmed", "ev1"⟩ := by
  decide

/-- C3 (amended): every Booking persisted by the transaction satisfies
end = start + dh hours, where dh is parseInt of the duration string with
its first h removed (dh is not constrained to be at least 1); and the
14:00 / 2h example persists start at 14:00 and end at 16:00 of the
requested date. -/
theorem booking_interval_invariant :
    (∀ (req : BookingReq) (ins : Except String String) (save mail : Except String Unit)
      (bk : Booking),
      (postBooking req ins save mail).savedBooking = some bk →
      ∃ dur dh, req.duration = some dur ∧ parseDurationHours dur = some dh ∧
        bk.endTime = bk.startTime + dh * 60 ∧ bk.duration = dur) ∧
    (∀ (d : CalDate) (nm em ph evId : String),
      ∃ bk,
        (postBooking ⟨some d, some "14:00", some "2h", some nm, some em, some ph,
            none, none⟩ (Except.ok evId) (Except.ok ())
            (Except.ok ())).savedBooking = some bk ∧
        bk.startTime = dateInstant d + 14 * 60 ∧
        bk.endTime = dateInstant d + 16 * 60) := by
  constructor
  · intro req ins save mail bk hsb
    obtain ⟨od, ots, odur, onm, oem, oph, st, msg⟩ := req
    rcases od with _ | d <;> rcases ots with _ | ts <;> rcases odur with _ | dur <;>
      rcases onm with _ | nm <;> rcases oem with _ | em <;> rcases oph with _ | ph <;>
      try simp [postBooking, validationFailure] at hsb
    simp only [postBookingValid, computeBookingTimes] at hsb
    rcases hp : parseHM ts with _ | ⟨h0, mi0⟩ <;>
      rcases hq : parseDurationHours dur with _ | dh0 <;>
      simp only [hp, hq] at hsb
    · simp at hsb
    · simp at hsb
    · simp at hsb
    · rcases ins with errA | evId
      · simp at hsb
      · rcases save with errB | u
        · simp at hsb
        · rcases mail with errM | u2 <;>
          · simp only [Option.some.injEq] at hsb
            subst hsb
            exact ⟨dur, dh0, rfl, hq, rfl, rfl⟩
  · intro d nm em ph evId
    have h1 : parseHM "14:00" = some (14, 0) := by decide
    have h2 : parseDurationHours "2h" = some 2 := by decide
    refine ⟨⟨evId, dateInstant d + 14 * 60 + 0, dateInstant d + 14 * 60 + 0,
      dateInstant d + 14 * 60 + 0 + 2 * 60, nm, em, ph, "2h", none, none,
      "confirmed", evId⟩, ?_,
      by show dateInstant d + 14 * 60 + 0 = dateInstant d + 14 * 60; omega,
      by show dateInstant d + 14 * 60 + 0 + 2 * 60 = dateInstant d + 16 * 60; omega⟩
    simp only [postBooking, postBookingValid, computeBookingTimes, h1, h2]

/-- C3 witness: the persisted record of the successful 2030-07-03 14:00 2h
booking satisfies the interval equation. -/
theorem booking_interval_invariant_witness :
    ∃ dur dh, reqOk.duration = some dur ∧ parseDurationHours dur = some dh ∧
      bkOk.endTime = bkOk.startTime + dh * 60 ∧ bkOk.duration = dur :=
  booking_interval_invariant.1 reqOk (Except.ok "ev1") (Except.ok ()) (Except.ok ())
    bkOk (by decide)

